import Mathlib

/-!
Verification of the aws-cdk specification claims against a shallow embedding
of the repository's source files.

Embedded source files:
- the RDS Aurora cluster instance module (`ClusterInstanceType`, `ClusterInstance`,
  `AuroraClusterInstance`, `databaseInstanceType`);
- the Redshift `ClusterSubnetGroup` construct;
- the IAM `ImmutableRole` wrapper;
- the construct-tree synthesis pipeline (modelled from the spec, see below).

TypeScript optional properties are embedded as `Option`; JavaScript object
spread `{...a, ...b}` is embedded as field-wise `Option.or` with `b` winning;
JavaScript `x ?? y` is `Option.or`, `x || y` on booleans is `Option.getD`
composed with `||`; `throw new ValidationError(...)` is `Except.error`.
-/

namespace AwsCdk

/-! Shared enums from aws-ec2 and core.  These modules are only referenced by
the sources under verification, which import them; the constructors used by
those sources are embedded here. -/

/-- Subnet type of a VPC subnet selection (aws-ec2 `SubnetType`; the embedded
sources only distinguish `PUBLIC`, `PRIVATE_WITH_EGRESS` and other values). -/
inductive SubnetType where
  | PUBLIC
  | PRIVATE_WITH_EGRESS
  | PRIVATE_ISOLATED
deriving DecidableEq, Repr

/-- Selection of subnets within a VPC (aws-ec2 `SubnetSelection`; the embedded
sources only read its optional `subnetType`). -/
structure SubnetSelection where
  subnetType : Option SubnetType := none
deriving DecidableEq, Repr

/-- An EC2 instance type (aws-ec2 `InstanceType`), carrying its string name,
e.g. `InstanceType.of(InstanceClass.T3, InstanceSize.MEDIUM)` is "t3.medium". -/
structure Ec2InstanceType where
  name : String
deriving DecidableEq, Repr

/-- String representation of an EC2 instance type. -/
def Ec2InstanceType.toString (t : Ec2InstanceType) : String := t.name

/-- The `ec2.InstanceType.of(ec2.InstanceClass.T3, ec2.InstanceSize.MEDIUM)`
default used by `ClusterInstanceType.provisioned`. -/
def Ec2InstanceType.t3Medium : Ec2InstanceType := ⟨"t3.medium"⟩

/-! Embedding of the RDS cluster instance module (src/unnamed/part_000). -/

/-- The enum `InstanceType` of the cluster-instance module: provisioned or
serverless v2. -/
inductive InstanceType where
  | PROVISIONED
  | SERVERLESS_V2
deriving DecidableEq, Repr

/-- Modelled from the spec: the enum `PerformanceInsightRetention` is imported
from './props', which is not under src/.  Per the doc comments in the embedded
source, the default retention is 7 days; the other retention periods are
nonzero day counts (so JavaScript `x || DEFAULT` coincides with `x ?? DEFAULT`
on them).  Only a sample of the nonzero values is embedded. -/
inductive PerformanceInsightRetention where
  | DEFAULT
  | MONTHS_1
  | MONTHS_12
  | LONG_TERM
deriving DecidableEq, Repr

/-- Day count of a retention period; `DEFAULT` is the documented 7 days. -/
def PerformanceInsightRetention.days : PerformanceInsightRetention → Nat
  | .DEFAULT => 7
  | .MONTHS_1 => 31
  | .MONTHS_12 => 372
  | .LONG_TERM => 731

/-- The class `ClusterInstanceType`: a CloudFormation instance-type string
together with the provisioned/serverless kind. -/
structure ClusterInstanceType where
  instanceType : String
  type : InstanceType
deriving DecidableEq, Repr

/-- Static factory `ClusterInstanceType.serverlessV2()`. -/
def ClusterInstanceType.serverlessV2 : ClusterInstanceType :=
  ⟨"db.serverless", InstanceType.SERVERLESS_V2⟩

/-- Static factory `ClusterInstanceType.provisioned(instanceType?)`:
defaults to t3.medium. -/
def ClusterInstanceType.provisioned (instanceType : Option Ec2InstanceType) : ClusterInstanceType :=
  ⟨(instanceType.getD Ec2InstanceType.t3Medium).name, InstanceType.PROVISIONED⟩

/-- Method `toString()` of `ClusterInstanceType`. -/
def ClusterInstanceType.toStr (c : ClusterInstanceType) : String := c.instanceType

/-- Function `databaseInstanceType`: turn a regular instance type into a
database instance type (source lines 611-617). -/
def databaseInstanceType (instanceType : ClusterInstanceType) : String :=
  if instanceType.type = InstanceType.SERVERLESS_V2 then instanceType.toStr
  else "db." ++ instanceType.toStr

/-- The cluster an instance is bound to, restricted to what the embedded
constructor reads from it: whether `Resource.isOwnedResource(cluster)` holds,
and the owned cluster's `vpcSubnets` selection. -/
structure DatabaseClusterModel where
  isOwnedResource : Bool
  vpcSubnets : Option SubnetSelection := none
deriving DecidableEq, Repr

/-- Interface `ClusterInstanceOptions`, restricted to the options that flow
into the outputs embedded here.  Omitted options (`instanceIdentifier`,
`autoMinorVersionUpgrade`, `availabilityZone`, `preferredMaintenanceWindow`,
`parameters`, `allowMajorVersionUpgrade`, `parameterGroup`, `caCertificate`,
`applyImmediately`) are copied verbatim into unmodelled CloudFormation fields
and affect nothing modelled. -/
structure ClusterInstanceOptions where
  enablePerformanceInsights : Option Bool := none
  performanceInsightRetention : Option PerformanceInsightRetention := none
  performanceInsightEncryptionKey : Option String := none
  publiclyAccessible : Option Bool := none
  isFromLegacyInstanceProps : Option Bool := none
deriving DecidableEq, Repr

/-- Interface `ProvisionedClusterInstanceProps`. -/
structure ProvisionedClusterInstanceProps extends ClusterInstanceOptions where
  instanceType : Option Ec2InstanceType := none
  promotionTier : Option Int := none
deriving DecidableEq, Repr

/-- Interface `ServerlessV2ClusterInstanceProps`. -/
structure ServerlessV2ClusterInstanceProps extends ClusterInstanceOptions where
  scaleWithWriter : Option Bool := none
deriving DecidableEq, Repr

/-- Interface `ClusterInstanceProps` (the private constructor argument of
class `ClusterInstance`). -/
structure ClusterInstanceProps extends ClusterInstanceOptions where
  instanceType : ClusterInstanceType
  promotionTier : Option Int := none
deriving DecidableEq, Repr

/-- Class `ClusterInstance`: an id together with the stored props. -/
structure ClusterInstance where
  id : String
  props : ClusterInstanceProps
deriving DecidableEq, Repr

/-- Static factory `ClusterInstance.provisioned(id, props)`. -/
def ClusterInstance.provisioned (id : String) (props : ProvisionedClusterInstanceProps) :
    ClusterInstance :=
  ⟨id, { toClusterInstanceOptions := props.toClusterInstanceOptions,
         instanceType := ClusterInstanceType.provisioned props.instanceType,
         promotionTier := props.promotionTier }⟩

/-- Static factory `ClusterInstance.serverlessV2(id, props)`: places the
instance in promotion tier 1 when `scaleWithWriter` is truthy, tier 2
otherwise. -/
def ClusterInstance.serverlessV2 (id : String) (props : ServerlessV2ClusterInstanceProps) :
    ClusterInstance :=
  ⟨id, { toClusterInstanceOptions := props.toClusterInstanceOptions,
         instanceType := ClusterInstanceType.serverlessV2,
         promotionTier := some (if props.scaleWithWriter.getD false then 1 else 2) }⟩

/-- Interface `ClusterInstanceBindOptions`, restricted to the option that
overlaps the stored props in the spread `{cluster, ...this.props, ...props}`
(the other bind options: `monitoringInterval`, `monitoringRole`,
`removalPolicy`, `subnetGroup` flow only into unmodelled outputs). -/
structure ClusterInstanceBindOptions where
  promotionTier : Option Int := none
deriving DecidableEq, Repr

/-- The merged props handed to the `AuroraClusterInstance` constructor. -/
structure AuroraClusterInstanceProps extends ClusterInstanceOptions where
  cluster : DatabaseClusterModel
  instanceType : Option ClusterInstanceType := none
  promotionTier : Option Int := none
deriving DecidableEq, Repr

/-- The `CfnDBInstance` template fragment emitted by the constructor,
restricted to the properties embedded here. -/
structure CfnDBInstanceProps where
  promotionTier : Option Int
  dbInstanceClass : Option String
  publiclyAccessible : Option Bool
  enablePerformanceInsights : Option Bool
  performanceInsightsKmsKeyId : Option String
  performanceInsightsRetentionPeriod : Option Nat
deriving DecidableEq, Repr

/-- The observable fields of a constructed `AuroraClusterInstance`, together
with the emitted `CfnDBInstance` fragment. -/
structure AuroraClusterInstanceResult where
  tier : Int
  type : InstanceType
  instanceSize : Option String
  performanceInsightsEnabled : Bool
  performanceInsightRetention : Option PerformanceInsightRetention
  performanceInsightEncryptionKey : Option String
  cfn : CfnDBInstanceProps
deriving DecidableEq, Repr

/-- Error message thrown for an out-of-range promotion tier. -/
def promotionTierError : String := "promotionTier must be between 0-15"

/-- Error message thrown for contradictory Performance Insights options. -/
def performanceInsightsError : String :=
  "`enablePerformanceInsights` disabled, but `performanceInsightRetention` or `performanceInsightEncryptionKey` was set"

/-- Constructor of class `AuroraClusterInstance` (source lines 501-608),
restricted to the validations and outputs embedded here. -/
def auroraClusterInstance (props : AuroraClusterInstanceProps) :
    Except String AuroraClusterInstanceResult :=
  let tier : Int := props.promotionTier.getD 2
  if tier > 15 then
    Except.error promotionTierError
  else
    let isInPublicSubnet : Option Bool :=
      props.cluster.vpcSubnets.map (fun s => s.subnetType == some SubnetType.PUBLIC)
    let publiclyAccessible : Option Bool :=
      if props.cluster.isOwnedResource then Option.or props.publiclyAccessible isInPublicSubnet
      else props.publiclyAccessible
    let instanceType := props.instanceType.getD ClusterInstanceType.serverlessV2
    let type := instanceType.type
    let instanceSize : Option String :=
      if type = InstanceType.PROVISIONED then props.instanceType.map ClusterInstanceType.toStr
      else none
    let enablePerformanceInsights : Bool :=
      props.enablePerformanceInsights.getD false
        || props.performanceInsightRetention.isSome
        || props.performanceInsightEncryptionKey.isSome
    if enablePerformanceInsights && (props.enablePerformanceInsights == some false) then
      Except.error performanceInsightsError
    else
      let performanceInsightRetention : Option PerformanceInsightRetention :=
        if enablePerformanceInsights then
          some (props.performanceInsightRetention.getD PerformanceInsightRetention.DEFAULT)
        else none
      let isLegacy := props.isFromLegacyInstanceProps.getD false
      Except.ok
        { tier := tier
          type := type
          instanceSize := instanceSize
          performanceInsightsEnabled := enablePerformanceInsights
          performanceInsightRetention := performanceInsightRetention
          performanceInsightEncryptionKey := props.performanceInsightEncryptionKey
          cfn :=
            { promotionTier := if isLegacy then none else some tier
              dbInstanceClass :=
                if props.instanceType.isSome then some (databaseInstanceType instanceType)
                else none
              publiclyAccessible := publiclyAccessible
              enablePerformanceInsights :=
                if enablePerformanceInsights then some true else props.enablePerformanceInsights
              performanceInsightsKmsKeyId := props.performanceInsightEncryptionKey
              performanceInsightsRetentionPeriod :=
                performanceInsightRetention.map PerformanceInsightRetention.days } }

/-- Method `ClusterInstance.bind(scope, cluster, props)`: the spread
`{cluster, ...this.props, ...props}` lets a bind-time `promotionTier`
override the stored one. -/
def ClusterInstance.bindTo (ci : ClusterInstance) (cluster : DatabaseClusterModel)
    (options : ClusterInstanceBindOptions) : Except String AuroraClusterInstanceResult :=
  auroraClusterInstance
    { toClusterInstanceOptions := ci.props.toClusterInstanceOptions
      cluster := cluster
      instanceType := some ci.props.instanceType
      promotionTier := Option.or options.promotionTier ci.props.promotionTier }

/-! Embedding of the Redshift ClusterSubnetGroup construct
(src/packages/@aws-cdk/aws-redshift-alpha/lib/subnet-group.ts). -/

/-- Removal policy of a resource (core `RemovalPolicy`; the constructors used
by the embedded sources). -/
inductive RemovalPolicy where
  | DESTROY
  | RETAIN
  | SNAPSHOT
deriving DecidableEq, Repr

/-- CloudFormation deletion policy values. -/
inductive CfnDeletionPolicy where
  | Delete
  | Retain
  | Snapshot
deriving DecidableEq, Repr

/-- Mapping from a removal policy to the CloudFormation deletion policy. -/
def toCfnDeletionPolicy : RemovalPolicy → CfnDeletionPolicy
  | .DESTROY => .Delete
  | .RETAIN => .Retain
  | .SNAPSHOT => .Snapshot

/-- A CloudFormation template value: either a concrete literal string or a
Ref token, a placeholder naming a logical id whose value is only resolved
at synthesis/deploy time. -/
inductive CfnToken where
  | literal : String → CfnToken
  | ref : String → CfnToken
deriving DecidableEq, Repr

/-- Modelled from the spec: synthesis-time token resolution (core, not under
src/) replaces a Ref token by the value the deployment engine binds to its
logical id, and leaves literals unchanged. -/
def resolveToken (env : String → String) : CfnToken → String
  | .literal s => s
  | .ref logicalId => env logicalId

/-- The `CfnClusterSubnetGroup` L1 resource as constructed by the embedded
source: its logical id, properties, and resource policies. -/
structure CfnClusterSubnetGroupModel where
  logicalId : String
  description : String
  subnetIds : List String
  deletionPolicy : Option CfnDeletionPolicy := none
  updateReplacePolicy : Option CfnDeletionPolicy := none
deriving DecidableEq, Repr

/-- Modelled from the spec: `CfnResource.applyRemovalPolicy` (core, not under
src/) sets the resource's DeletionPolicy from the removal policy and, when
the `applyToUpdateReplacePolicy` option is set, its UpdateReplacePolicy as
well. -/
def applyRemovalPolicy (res : CfnClusterSubnetGroupModel) (policy : RemovalPolicy)
    (applyToUpdateReplacePolicy : Bool) : CfnClusterSubnetGroupModel :=
  { res with
    deletionPolicy := some (toCfnDeletionPolicy policy)
    updateReplacePolicy :=
      if applyToUpdateReplacePolicy then some (toCfnDeletionPolicy policy)
      else res.updateReplacePolicy }

/-- Interface `ClusterSubnetGroupProps`.  The VPC is embedded by its
`selectSubnets` behaviour: the function from a subnet selection to the
selected subnet ids. -/
structure ClusterSubnetGroupProps where
  description : String
  vpc : SubnetSelection → List String
  vpcSubnets : Option SubnetSelection := none
  removalPolicy : Option RemovalPolicy := none

/-- The observable result of constructing a `ClusterSubnetGroup`: the emitted
L1 resource and the `clusterSubnetGroupName` attribute. -/
structure ClusterSubnetGroupResult where
  cfn : CfnClusterSubnetGroupModel
  clusterSubnetGroupName : CfnToken

/-- Constructor of class `ClusterSubnetGroup` (source lines 70-86). -/
def clusterSubnetGroup (props : ClusterSubnetGroupProps) : ClusterSubnetGroupResult :=
  let subnetIds :=
    props.vpc (props.vpcSubnets.getD { subnetType := some SubnetType.PRIVATE_WITH_EGRESS })
  let subnetGroup : CfnClusterSubnetGroupModel :=
    { logicalId := "Default", description := props.description, subnetIds := subnetIds }
  let subnetGroup := applyRemovalPolicy subnetGroup (props.removalPolicy.getD RemovalPolicy.RETAIN) true
  { cfn := subnetGroup, clusterSubnetGroupName := CfnToken.ref subnetGroup.logicalId }

/-! Embedding of the IAM ImmutableRole wrapper
(src/packages/aws-cdk-lib/aws-iam/lib/private/immutable-role.ts).
Principals and grant results are embedded abstractly: a principal is named by
a string, and the wrapped role's grant methods are arbitrary functions from
their arguments to grant results. -/

/-- An IAM policy statement (only its identity matters to the embedded
source, which never reads it). -/
structure PolicyStatement where
  actions : List String := []
  resources : List String := []
deriving DecidableEq, Repr

/-- An inline IAM policy. -/
structure PolicyModel where
  policyName : String := ""
  statements : List PolicyStatement := []
deriving DecidableEq, Repr

/-- A managed IAM policy. -/
structure ManagedPolicyModel where
  managedPolicyArn : String := ""
deriving DecidableEq, Repr

/-- A principal policy fragment (`policyFragment`). -/
structure PrincipalPolicyFragment where
  principalJson : List String := []
deriving DecidableEq, Repr

/-- The result of a grant method. -/
structure GrantModel where
  grantee : String
  actions : List String
deriving DecidableEq, Repr

/-- The wrapped `IRole`: its read-only attributes and the behaviour of its
grant methods. -/
structure IRoleModel where
  roleArn : String
  roleName : String
  assumeRoleAction : String
  policyFragment : PrincipalPolicyFragment
  principalAccount : Option String
  stack : String
  grantResult : String → List String → GrantModel
  grantPassRoleResult : String → GrantModel
  grantAssumeRoleResult : String → GrantModel

/-- Class `ImmutableRole`: the wrapped role and the `addGrantsToResources`
flag, the only state the class holds. -/
structure ImmutableRole where
  role : IRoleModel
  addGrantsToResources : Bool

/-- Attribute `assumeRoleAction = this.role.assumeRoleAction`. -/
def ImmutableRole.assumeRoleAction (r : ImmutableRole) : String := r.role.assumeRoleAction

/-- Attribute `policyFragment = this.role.policyFragment`. -/
def ImmutableRole.policyFragment (r : ImmutableRole) : PrincipalPolicyFragment :=
  r.role.policyFragment

/-- Attribute `principalAccount = this.role.principalAccount`. -/
def ImmutableRole.principalAccount (r : ImmutableRole) : Option String :=
  r.role.principalAccount

/-- Attribute `roleArn = this.role.roleArn`. -/
def ImmutableRole.roleArn (r : ImmutableRole) : String := r.role.roleArn

/-- Attribute `roleName = this.role.roleName`. -/
def ImmutableRole.roleName (r : ImmutableRole) : String := r.role.roleName

/-- Attribute `stack = this.role.stack`. -/
def ImmutableRole.stack (r : ImmutableRole) : String := r.role.stack

/-- Method `attachInlinePolicy(_policy)`: does nothing; the state after the
call is returned. -/
def ImmutableRole.attachInlinePolicy (r : ImmutableRole) (_policy : PolicyModel) :
    ImmutableRole := r

/-- Method `addManagedPolicy(_policy)`: does nothing; the state after the
call is returned. -/
def ImmutableRole.addManagedPolicy (r : ImmutableRole) (_policy : ManagedPolicyModel) :
    ImmutableRole := r

/-- The `AddToPrincipalPolicyResult` record (the `policyDependable` member, a
fresh empty `DependencyGroup`, carries no information and is omitted). -/
structure AddToPrincipalPolicyResult where
  statementAdded : Bool
deriving DecidableEq, Repr

/-- Method `addToPrincipalPolicy(_statement)`: modifies nothing and pretends
success exactly when `addGrantsToResources` is off; returns the state after
the call together with the result. -/
def ImmutableRole.addToPrincipalPolicy (r : ImmutableRole) (_statement : PolicyStatement) :
    ImmutableRole × AddToPrincipalPolicyResult :=
  (r, { statementAdded := !r.addGrantsToResources })

/-- Method `addToPolicy(statement)`: returns
`this.addToPrincipalPolicy(statement).statementAdded`. -/
def ImmutableRole.addToPolicy (r : ImmutableRole) (statement : PolicyStatement) :
    ImmutableRole × Bool :=
  let rr := r.addToPrincipalPolicy statement
  (rr.1, rr.2.statementAdded)

/-- Method `grant(grantee, ...actions)`: delegates to the wrapped role. -/
def ImmutableRole.grant (r : ImmutableRole) (grantee : String) (actions : List String) :
    GrantModel :=
  r.role.grantResult grantee actions

/-- Method `grantPassRole(grantee)`: delegates to the wrapped role. -/
def ImmutableRole.grantPassRole (r : ImmutableRole) (grantee : String) : GrantModel :=
  r.role.grantPassRoleResult grantee

/-- Method `grantAssumeRole(identity)`: delegates to the wrapped role. -/
def ImmutableRole.grantAssumeRole (r : ImmutableRole) (identity : String) : GrantModel :=
  r.role.grantAssumeRoleResult identity

/-! Modelled from the spec: the construct-tree synthesis pipeline.  The code
that implements synthesis (the core construct/synthesis engine) is not under
src/; the model below follows the spec's description: "a tree of typed nodes,
each contributing attributes, dependencies, and metadata, which is walked
once at synthesis time to produce an ordered, acyclic resource graph", with
"dependency ordering" and "circular-reference detection". -/

/-- A resource contributed by a construct node: its logical id and the
logical ids of the resources it depends on. -/
structure ResourceDecl where
  logicalId : Nat
  dependencies : List Nat
deriving DecidableEq, Repr

mutual
/-- Modelled from the spec: a construct tree, each node optionally
contributing one resource and holding a forest of child constructs. -/
inductive ConstructTree where
  | node : Option ResourceDecl → ConstructForest → ConstructTree
deriving DecidableEq
/-- A forest of sibling construct trees. -/
inductive ConstructForest where
  | nil : ConstructForest
  | cons : ConstructTree → ConstructForest → ConstructForest
deriving DecidableEq
end

mutual
/-- The single synthesis-time walk of the construct tree, collecting the
contributed resources in pre-order. -/
def ConstructTree.collect : ConstructTree → List ResourceDecl
  | .node r children => r.toList ++ ConstructForest.collectAll children
/-- Collect the resources contributed by a forest of constructs. -/
def ConstructForest.collectAll : ConstructForest → List ResourceDecl
  | .nil => []
  | .cons t rest => t.collect ++ ConstructForest.collectAll rest
end

/-- A resource is ready to be emitted when all of its dependencies have
already been emitted. -/
def synthReady (emittedIds : List Nat) (r : ResourceDecl) : Bool :=
  r.dependencies.all (fun d => decide (d ∈ emittedIds))

/-- Pick the first ready resource among the pending ones, returning it and
the remaining pending resources. -/
def pickReady (emittedIds : List Nat) : List ResourceDecl → Option (ResourceDecl × List ResourceDecl)
  | [] => none
  | r :: rest =>
    if synthReady emittedIds r then some (r, rest)
    else
      match pickReady emittedIds rest with
      | none => none
      | some (p, rest2) => some (p, r :: rest2)

/-- Dependency-ordering loop of synthesis: repeatedly emit a ready resource;
when no pending resource is ready a circular reference is detected and
synthesis fails.  The emitted resources are accumulated in reverse. -/
def synthLoop : Nat → List ResourceDecl → List ResourceDecl → Option (List ResourceDecl)
  | _, emitted, [] => some emitted.reverse
  | 0, _, _ => none
  | fuel + 1, emitted, pending =>
    match pickReady (emitted.map ResourceDecl.logicalId) pending with
    | none => none
    | some (r, rest) => synthLoop fuel (r :: emitted) rest

/-- Modelled from the spec: synthesis walks the construct tree once and
produces the ordered resource graph, failing on circular references. -/
def synthesize (tree : ConstructTree) : Option (List ResourceDecl) :=
  let resources := tree.collect
  synthLoop resources.length [] resources

/-- The dependency relation of a synthesized template: resource `a` depends
on resource `b`. -/
def dependsOn (order : List ResourceDecl) (a b : ResourceDecl) : Prop :=
  a ∈ order ∧ b ∈ order ∧ b.logicalId ∈ a.dependencies

/-- Invariant of the reversed emission accumulator: every resource's
dependencies are among the logical ids of the resources emitted before it
(which sit after it in the reversed accumulator). -/
def RevOK : List ResourceDecl → Prop
  | [] => True
  | r :: rest =>
    (∀ d ∈ r.dependencies, d ∈ rest.map ResourceDecl.logicalId) ∧ RevOK rest

/-! Concrete inputs used by the counterexample, code-bug and witness
theorems below. -/

/-- Props with a negative promotion tier (all other options defaulted). -/
def c3props : AuroraClusterInstanceProps :=
  { cluster := { isOwnedResource := false }, promotionTier := some (-1) }

/-- Props on an owned cluster with no `vpcSubnets` and no explicit
`publiclyAccessible`. -/
def c4cex : AuroraClusterInstanceProps :=
  { cluster := { isOwnedResource := true } }

/-- A VPC whose PRIVATE_WITH_EGRESS selection yields two subnets. -/
def c5vpc : SubnetSelection → List String := fun s =>
  if s.subnetType = some SubnetType.PRIVATE_WITH_EGRESS then ["subnet-1", "subnet-2"] else []

/-- Subnet-group props with `vpcSubnets` and `removalPolicy` omitted. -/
def c5props : ClusterSubnetGroupProps :=
  { description := "subnet group", vpc := c5vpc }

/-- Witness input for claim C2: Performance Insights explicitly enabled. -/
def c2wprops : AuroraClusterInstanceProps :=
  { cluster := { isOwnedResource := false },
    toClusterInstanceOptions := { enablePerformanceInsights := some true } }

/-- Witness output for claim C2. -/
def c2wres : AuroraClusterInstanceResult :=
  { tier := 2
    type := InstanceType.SERVERLESS_V2
    instanceSize := none
    performanceInsightsEnabled := true
    performanceInsightRetention := some PerformanceInsightRetention.DEFAULT
    performanceInsightEncryptionKey := none
    cfn :=
      { promotionTier := some 2
        dbInstanceClass := none
        publiclyAccessible := none
        enablePerformanceInsights := some true
        performanceInsightsKmsKeyId := none
        performanceInsightsRetentionPeriod := some 7 } }

/-- Witness input for claim C4: owned cluster in PUBLIC subnets, no explicit
`publiclyAccessible`. -/
def c4wprops : AuroraClusterInstanceProps :=
  { cluster := { isOwnedResource := true,
                 vpcSubnets := some { subnetType := some SubnetType.PUBLIC } } }

/-- Witness output for claim C4. -/
def c4wres : AuroraClusterInstanceResult :=
  { tier := 2
    type := InstanceType.SERVERLESS_V2
    instanceSize := none
    performanceInsightsEnabled := false
    performanceInsightRetention := none
    performanceInsightEncryptionKey := none
    cfn :=
      { promotionTier := some 2
        dbInstanceClass := none
        publiclyAccessible := some true
        enablePerformanceInsights := none
        performanceInsightsKmsKeyId := none
        performanceInsightsRetentionPeriod := none } }

/-- Witness instance type for claim C6. -/
def c6wtype : Ec2InstanceType := ⟨"r6g.4xlarge"⟩

/-- Witness input for claim C6: a provisioned r6g.4xlarge instance. -/
def c6wprops : AuroraClusterInstanceProps :=
  { cluster := { isOwnedResource := false },
    instanceType := some (ClusterInstanceType.provisioned (some c6wtype)) }

/-- Witness output for claim C6. -/
def c6wres : AuroraClusterInstanceResult :=
  { tier := 2
    type := InstanceType.PROVISIONED
    instanceSize := some "r6g.4xlarge"
    performanceInsightsEnabled := false
    performanceInsightRetention := none
    performanceInsightEncryptionKey := none
    cfn :=
      { promotionTier := some 2
        dbInstanceClass := some "db.r6g.4xlarge"
        publiclyAccessible := none
        enablePerformanceInsights := none
        performanceInsightsKmsKeyId := none
        performanceInsightsRetentionPeriod := none } }

/-- Witness input for claim C7: a serverless v2 reader scaling with the
writer. -/
def c7wprops : ServerlessV2ClusterInstanceProps := { scaleWithWriter := some true }

/-- Witness cluster for claim C7. -/
def c7wcluster : DatabaseClusterModel := { isOwnedResource := false }

/-- Witness output for claim C7. -/
def c7wres : AuroraClusterInstanceResult :=
  { tier := 1
    type := InstanceType.SERVERLESS_V2
    instanceSize := none
    performanceInsightsEnabled := false
    performanceInsightRetention := none
    performanceInsightEncryptionKey := none
    cfn :=
      { promotionTier := some 1
        dbInstanceClass := some "db.serverless"
        publiclyAccessible := none
        enablePerformanceInsights := none
        performanceInsightsKmsKeyId := none
        performanceInsightsRetentionPeriod := none } }

/-- Witness construct tree for claim C1: resource 0 depends on 1, resource
2 depends on 0 and 1. -/
def c1tree : ConstructTree :=
  .node none
    (.cons (.node (some ⟨0, [1]⟩) .nil)
      (.cons (.node (some ⟨1, []⟩) .nil)
        (.cons (.node (some ⟨2, [0, 1]⟩) .nil) .nil)))

/-- Witness synthesis order for claim C1. -/
def c1order : List ResourceDecl := [⟨1, []⟩, ⟨0, [1]⟩, ⟨2, [0, 1]⟩]

/-- Witness resource for claim C1. -/
def c1res : ResourceDecl := ⟨2, [0, 1]⟩

/-! Theorems settling the claims. -/

/-- Claim C9: `ImmutableRole` ignores all mutating operations: for every
immutable role and every argument, `attachInlinePolicy` and
`addManagedPolicy` leave every observable field of the role unchanged;
`addToPrincipalPolicy` modifies no policy and returns `statementAdded` equal
to the negation of the `addGrantsToResources` flag regardless of the
statement; and `addToPolicy` returns exactly the `statementAdded` field that
`addToPrincipalPolicy` returns for the same statement. -/
theorem immutableRole_ignores_mutations (r : ImmutableRole) (p : PolicyModel)
    (m : ManagedPolicyModel) (s : PolicyStatement) :
    r.attachInlinePolicy p = r ∧
    r.addManagedPolicy m = r ∧
    (r.addToPrincipalPolicy s).1 = r ∧
    (r.addToPrincipalPolicy s).2.statementAdded = !r.addGrantsToResources ∧
    (r.addToPolicy s).1 = r ∧
    (r.addToPolicy s).2 = (r.addToPrincipalPolicy s).2.statementAdded :=
  ⟨rfl, rfl, rfl, rfl, rfl, rfl⟩

/-- Claim C10: for every `ImmutableRole` wrapping a role, the read-only
attributes `roleArn`, `roleName`, `assumeRoleAction`, `policyFragment`,
`principalAccount` and `stack` equal the wrapped role's attributes, and
`grant`, `grantPassRole` and `grantAssumeRole` return exactly the result of
calling the same method on the wrapped role with the same arguments. -/
theorem immutableRole_delegates_to_wrapped_role (role : IRoleModel) (flag : Bool)
    (grantee : String) (actions : List String) (identity : String) :
    (ImmutableRole.mk role flag).roleArn = role.roleArn ∧
    (ImmutableRole.mk role flag).roleName = role.roleName ∧
    (ImmutableRole.mk role flag).assumeRoleAction = role.assumeRoleAction ∧
    (ImmutableRole.mk role flag).policyFragment = role.policyFragment ∧
    (ImmutableRole.mk role flag).principalAccount = role.principalAccount ∧
    (ImmutableRole.mk role flag).stack = role.stack ∧
    (ImmutableRole.mk role flag).grant grantee actions = role.grantResult grantee actions ∧
    (ImmutableRole.mk role flag).grantPassRole grantee = role.grantPassRoleResult grantee ∧
    (ImmutableRole.mk role flag).grantAssumeRole identity = role.grantAssumeRoleResult identity :=
  ⟨rfl, rfl, rfl, rfl, rfl, rfl, rfl, rfl, rfl⟩

/-- Claim C8: for every `ClusterSubnetGroup`, the `clusterSubnetGroupName`
attribute is the Ref token of the underlying `CfnClusterSubnetGroup`: a
placeholder resolved lazily at synthesis time (to whatever value the
deployment engine binds to the resource's logical id), never a concrete
literal name at construction time. -/
theorem clusterSubnetGroupName_is_ref_token (props : ClusterSubnetGroupProps) :
    (clusterSubnetGroup props).clusterSubnetGroupName =
      CfnToken.ref (clusterSubnetGroup props).cfn.logicalId ∧
    (∀ s : String, (clusterSubnetGroup props).clusterSubnetGroupName ≠ CfnToken.literal s) ∧
    (∀ env : String → String,
      resolveToken env (clusterSubnetGroup props).clusterSubnetGroupName =
        env (clusterSubnetGroup props).cfn.logicalId) :=
  ⟨rfl, fun _ h => CfnToken.noConfusion h, fun _ => rfl⟩

/-- Claim C5: for every `ClusterSubnetGroup` created without `vpcSubnets`,
the subnet ids placed in the emitted AWS::Redshift::ClusterSubnetGroup are
exactly those selected by the VPC's PRIVATE_WITH_EGRESS subnet selection;
and for every `ClusterSubnetGroup` created without `removalPolicy`, the
RETAIN removal policy is applied to the underlying resource, including its
update-replace policy. -/
theorem clusterSubnetGroup_defaults (props : ClusterSubnetGroupProps)
    (hsub : props.vpcSubnets = none) (hpol : props.removalPolicy = none) :
    (clusterSubnetGroup props).cfn.subnetIds =
      props.vpc { subnetType := some SubnetType.PRIVATE_WITH_EGRESS } ∧
    (clusterSubnetGroup props).cfn.deletionPolicy = some CfnDeletionPolicy.Retain ∧
    (clusterSubnetGroup props).cfn.updateReplacePolicy = some CfnDeletionPolicy.Retain := by
  simp [clusterSubnetGroup, applyRemovalPolicy, toCfnDeletionPolicy, hsub, hpol]

/-- Witness for claim C5: a concrete subnet group with both options omitted
gets the VPC's PRIVATE_WITH_EGRESS subnets and Retain policies. -/
theorem clusterSubnetGroup_defaults_witness :
    c5props.vpcSubnets = none ∧ c5props.removalPolicy = none ∧
    (clusterSubnetGroup c5props).cfn.subnetIds = ["subnet-1", "subnet-2"] ∧
    (clusterSubnetGroup c5props).cfn.deletionPolicy = some CfnDeletionPolicy.Retain ∧
    (clusterSubnetGroup c5props).cfn.updateReplacePolicy = some CfnDeletionPolicy.Retain := by
  have h := clusterSubnetGroup_defaults c5props rfl rfl
  exact ⟨rfl, rfl, h.1, h.2.1, h.2.2⟩

/-- Claim C3 (code bug): the constructor only rejects promotion tiers above
15; at `promotionTier = -1`, a value the claim (and the code's own error
message "promotionTier must be between 0-15") requires to be rejected,
construction succeeds and the instance reports tier -1. -/
theorem promotionTier_lower_bound_unchecked :
    c3props.promotionTier = some (-1) ∧
    ((-1 : Int) < 0) ∧
    (auroraClusterInstance c3props).toOption.map AuroraClusterInstanceResult.tier = some (-1) :=
  ⟨rfl, by decide, rfl⟩

/-- Claim C4 counterexample: an Aurora cluster instance created without an
explicit `publiclyAccessible` on an owned cluster whose `vpcSubnets` is not
set (so the selection is not subnetType PUBLIC) emits no PubliclyAccessible
property at all, not the `false` the claim requires. -/
theorem publiclyAccessible_claim_counterexample :
    c4cex.publiclyAccessible = none ∧
    c4cex.cluster.vpcSubnets = none ∧
    (auroraClusterInstance c4cex).toOption.map (fun r => r.cfn.publiclyAccessible) = some none ∧
    some (none : Option Bool) ≠ some (some false) :=
  ⟨rfl, rfl, rfl, by decide⟩

/-- Claim C4 as amended: an explicit `publiclyAccessible` is emitted
unchanged; without it, on an owned cluster with a `vpcSubnets` selection the
emitted PubliclyAccessible is true exactly when the selection's subnetType
is PUBLIC, and when the cluster has no `vpcSubnets` or is not an owned
resource the property is omitted (undefined). -/
theorem publiclyAccessible_amended (props : AuroraClusterInstanceProps)
    (r : AuroraClusterInstanceResult) (hok : auroraClusterInstance props = Except.ok r) :
    (∀ b, props.publiclyAccessible = some b → r.cfn.publiclyAccessible = some b) ∧
    (props.publiclyAccessible = none → props.cluster.isOwnedResource = true →
      ∀ s, props.cluster.vpcSubnets = some s →
        r.cfn.publiclyAccessible = some (s.subnetType == some SubnetType.PUBLIC)) ∧
    (props.publiclyAccessible = none →
      (props.cluster.isOwnedResource = false ∨ props.cluster.vpcSubnets = none) →
      r.cfn.publiclyAccessible = none) := by
  simp only [auroraClusterInstance] at hok
  split at hok
  · exact absurd hok (by simp)
  · split at hok
    · exact absurd hok (by simp)
    · simp only [Except.ok.injEq] at hok
      subst hok
      refine ⟨?_, ?_, ?_⟩
      · intro b hb
        simp [hb, Option.or]
      · intro hb hown s hs
        simp [hb, hown, hs, Option.or]
      · intro hb hcase
        rcases hcase with h | h <;> simp [hb, h, Option.or]

/-- Witness for claim C4's amended statement: on an owned cluster with a
PUBLIC subnet selection and no explicit `publiclyAccessible`, the emitted
property is true. -/
theorem publiclyAccessible_amended_witness :
    c4wprops.publiclyAccessible = none ∧
    auroraClusterInstance c4wprops = Except.ok c4wres ∧
    c4wres.cfn.publiclyAccessible = some true := by
  refine ⟨rfl, rfl, ?_⟩
  have h := (publiclyAccessible_amended c4wprops c4wres rfl).2.1 rfl rfl
    { subnetType := some SubnetType.PUBLIC } rfl
  simpa using h

/-- Claim C2: constructing an Aurora cluster instance raises a validation
error if and only if `enablePerformanceInsights` is explicitly false while
`performanceInsightRetention` or `performanceInsightEncryptionKey` is set
(given a promotion tier the constructor accepts); when it does not raise,
`performanceInsightsEnabled` is true exactly when `enablePerformanceInsights`
is true or either of those two options is set, and the result's
`performanceInsightRetention` is the given retention, defaulting to the
7-day DEFAULT retention, when insights are enabled and undefined
otherwise. -/
theorem performanceInsights_validation (props : AuroraClusterInstanceProps)
    (htier : props.promotionTier.getD 2 ≤ 15) :
    ((∃ e, auroraClusterInstance props = Except.error e) ↔
      (props.enablePerformanceInsights = some false ∧
        (props.performanceInsightRetention.isSome = true ∨
          props.performanceInsightEncryptionKey.isSome = true))) ∧
    (∀ r, auroraClusterInstance props = Except.ok r →
      (r.performanceInsightsEnabled = true ↔
        (props.enablePerformanceInsights = some true ∨
          props.performanceInsightRetention.isSome = true ∨
          props.performanceInsightEncryptionKey.isSome = true)) ∧
      r.performanceInsightRetention =
        (if r.performanceInsightsEnabled then
          some (props.performanceInsightRetention.getD PerformanceInsightRetention.DEFAULT)
        else none)) := by
  obtain ⟨⟨epi, ret, key, pub, legacy⟩, cluster, itype, ptier⟩ := props
  simp only at htier ⊢
  have hne : ¬ ((ptier.getD 2 : Int) > 15) := by omega
  rcases epi with _ | b <;>
    rcases ret with _ | rv <;>
      rcases key with _ | kv <;>
        first
        | (cases b <;> simp_all [auroraClusterInstance, if_neg hne])
        | simp_all [auroraClusterInstance, if_neg hne]

/-- Witness for claim C2: with Performance Insights explicitly enabled and
no retention given, construction succeeds, insights are enabled and the
retention defaults to the 7-day DEFAULT. -/
theorem performanceInsights_validation_witness :
    c2wprops.promotionTier.getD 2 ≤ 15 ∧
    auroraClusterInstance c2wprops = Except.ok c2wres ∧
    c2wres.performanceInsightsEnabled = true ∧
    c2wres.performanceInsightRetention = some PerformanceInsightRetention.DEFAULT := by
  refine ⟨by decide, rfl, ?_, ?_⟩
  · exact ((performanceInsights_validation c2wprops (by decide)).2 c2wres rfl).1.mpr
      (Or.inl rfl)
  · have h := ((performanceInsights_validation c2wprops (by decide)).2 c2wres rfl).2
    simpa using h

/-- Claim C6: the emitted DBInstanceClass is a mechanical function of the
instance type: for a provisioned instance type `t` it is "db." prefixed to
`t`'s name ("db.t3.medium" when no EC2 instance type is given), and for a
serverless v2 instance it is exactly "db.serverless" with nothing
prepended. -/
theorem dbInstanceClass_mechanical (props : AuroraClusterInstanceProps)
    (r : AuroraClusterInstanceResult) (hok : auroraClusterInstance props = Except.ok r) :
    (∀ t : Ec2InstanceType,
      props.instanceType = some (ClusterInstanceType.provisioned (some t)) →
        r.cfn.dbInstanceClass = some ("db." ++ t.name)) ∧
    (props.instanceType = some (ClusterInstanceType.provisioned none) →
      r.cfn.dbInstanceClass = some "db.t3.medium") ∧
    (props.instanceType = some ClusterInstanceType.serverlessV2 →
      r.cfn.dbInstanceClass = some "db.serverless") := by
  simp only [auroraClusterInstance] at hok
  split at hok
  · exact absurd hok (by simp)
  · split at hok
    · exact absurd hok (by simp)
    · simp only [Except.ok.injEq] at hok
      subst hok
      refine ⟨fun t ht => ?_, fun ht => ?_, fun ht => ?_⟩ <;>
        simp_all [databaseInstanceType, ClusterInstanceType.provisioned,
          ClusterInstanceType.serverlessV2, ClusterInstanceType.toStr,
          Ec2InstanceType.t3Medium]

/-- Witness for claim C6: a provisioned r6g.4xlarge instance emits
DBInstanceClass "db.r6g.4xlarge". -/
theorem dbInstanceClass_mechanical_witness :
    auroraClusterInstance c6wprops = Except.ok c6wres ∧
    c6wres.cfn.dbInstanceClass = some "db.r6g.4xlarge" := by
  refine ⟨rfl, ?_⟩
  have h := (dbInstanceClass_mechanical c6wprops c6wres rfl).1 c6wtype rfl
  exact h.trans rfl

/-- Claim C7: `ClusterInstance.serverlessV2` places the instance in
promotion tier 1 when `scaleWithWriter` is true and in tier 2 otherwise
(including when it is omitted): whenever binding such an instance succeeds
with no bind-time promotion-tier override, the resulting tier is 1 or 2
accordingly. -/
theorem serverlessV2_promotion_tier (id : String) (p : ServerlessV2ClusterInstanceProps)
    (cluster : DatabaseClusterModel) (opts : ClusterInstanceBindOptions)
    (r : AuroraClusterInstanceResult)
    (hopts : opts.promotionTier = none)
    (hok : (ClusterInstance.serverlessV2 id p).bindTo cluster opts = Except.ok r) :
    r.tier = if p.scaleWithWriter = some true then 1 else 2 := by
  rcases hsw : p.scaleWithWriter with _ | b
  · simp [ClusterInstance.bindTo, ClusterInstance.serverlessV2, hopts, hsw, Option.or,
      auroraClusterInstance] at hok
    split at hok
    · exact absurd hok (by simp)
    · simp only [Except.ok.injEq] at hok
      subst hok
      simp [hsw]
  · cases b
    · simp [ClusterInstance.bindTo, ClusterInstance.serverlessV2, hopts, hsw, Option.or,
        auroraClusterInstance] at hok
      split at hok
      · exact absurd hok (by simp)
      · simp only [Except.ok.injEq] at hok
        subst hok
        simp [hsw]
    · simp [ClusterInstance.bindTo, ClusterInstance.serverlessV2, hopts, hsw, Option.or,
        auroraClusterInstance] at hok
      split at hok
      · exact absurd hok (by simp)
      · simp only [Except.ok.injEq] at hok
        subst hok
        simp [hsw]

/-- Witness for claim C7: a serverless v2 reader with `scaleWithWriter`
lands in promotion tier 1. -/
theorem serverlessV2_promotion_tier_witness :
    c7wprops.scaleWithWriter = some true ∧
    (ClusterInstance.serverlessV2 "reader1" c7wprops).bindTo c7wcluster {} = Except.ok c7wres ∧
    c7wres.tier = 1 := by
  refine ⟨rfl, rfl, ?_⟩
  have h := serverlessV2_promotion_tier "reader1" c7wprops c7wcluster {} c7wres rfl rfl
  simpa using h

/-! Lemmas about the synthesis loop, leading to claim C1. -/

/-- Dependencies of a ready resource are among the emitted ids. -/
theorem synthReady_mem (ids : List Nat) (r : ResourceDecl)
    (h : synthReady ids r = true) : ∀ d ∈ r.dependencies, d ∈ ids := by
  simp only [synthReady, List.all_eq_true, decide_eq_true_eq] at h
  exact h

/-- The resource picked by `pickReady` is ready, and removing it leaves a
permutation of the pending list. -/
theorem pickReady_spec (ids : List Nat) :
    ∀ pending r rest, pickReady ids pending = some (r, rest) →
      synthReady ids r = true ∧ pending.Perm (r :: rest) := by
  intro pending
  induction pending with
  | nil => intro r rest h; simp [pickReady] at h
  | cons x xs ih =>
    intro r rest h
    simp only [pickReady] at h
    split at h
    · rename_i hready
      simp only [Option.some.injEq, Prod.mk.injEq] at h
      obtain ⟨h1, h2⟩ := h
      subst h1; subst h2
      exact ⟨hready, List.Perm.refl _⟩
    · split at h
      · exact absurd h (by simp)
      · rename_i p rest2 heq
        simp only [Option.some.injEq, Prod.mk.injEq] at h
        obtain ⟨h1, h2⟩ := h
        subst h1; subst h2
        obtain ⟨hr, hperm⟩ := ih _ _ heq
        exact ⟨hr, (hperm.cons x).trans (List.Perm.swap _ _ _)⟩

/-- A successful synthesis loop emits a permutation of the accumulated and
pending resources. -/
theorem synthLoop_perm :
    ∀ fuel emitted pending out, synthLoop fuel emitted pending = some out →
      out.Perm (emitted.reverse ++ pending) := by
  intro fuel
  induction fuel with
  | zero =>
    intro emitted pending out h
    cases pending with
    | nil =>
      simp only [synthLoop, Option.some.injEq] at h
      subst h
      simp
    | cons x xs => simp [synthLoop] at h
  | succ n ih =>
    intro emitted pending out h
    cases pending with
    | nil =>
      simp only [synthLoop, Option.some.injEq] at h
      subst h
      simp
    | cons x xs =>
      simp only [synthLoop] at h
      split at h
      · exact absurd h (by simp)
      · rename_i r rest heq
        have hp := (pickReady_spec _ _ _ _ heq).2
        have hperm := ih _ _ _ h
        rw [List.reverse_cons, List.append_assoc, List.singleton_append] at hperm
        exact hperm.trans (List.Perm.append_left _ hp.symm)

/-- A successful synthesis loop preserves the reverse-accumulator
invariant: the emitted output is the reverse of an accumulator in which
every resource's dependencies point to later (earlier-emitted) entries. -/
theorem synthLoop_revOK :
    ∀ fuel emitted pending out, RevOK emitted → synthLoop fuel emitted pending = some out →
      ∃ em, RevOK em ∧ out = em.reverse := by
  intro fuel
  induction fuel with
  | zero =>
    intro emitted pending out hrev h
    cases pending with
    | nil =>
      simp only [synthLoop, Option.some.injEq] at h
      exact ⟨emitted, hrev, h.symm⟩
    | cons x xs => simp [synthLoop] at h
  | succ n ih =>
    intro emitted pending out hrev h
    cases pending with
    | nil =>
      simp only [synthLoop, Option.some.injEq] at h
      exact ⟨emitted, hrev, h.symm⟩
    | cons x xs =>
      simp only [synthLoop] at h
      split at h
      · exact absurd h (by simp)
      · rename_i r rest heq
        have hready := (pickReady_spec _ _ _ _ heq).1
        exact ih (r :: emitted) rest out ⟨synthReady_mem _ _ hready, hrev⟩ h

/-- In the reversed accumulator, every dependency id occurs in the emission
order and strictly before its dependent. -/
theorem revOK_indexOf :
    ∀ em : List ResourceDecl, RevOK em → (em.map ResourceDecl.logicalId).Nodup →
      ∀ a ∈ em.reverse, ∀ d ∈ a.dependencies,
        d ∈ em.reverse.map ResourceDecl.logicalId ∧
        (em.reverse.map ResourceDecl.logicalId).indexOf d <
          (em.reverse.map ResourceDecl.logicalId).indexOf a.logicalId := by
  intro em
  induction em with
  | nil => intro _ _ a ha; simp at ha
  | cons r rest ih =>
    intro hrev hnd a ha d hd
    obtain ⟨hdep, hrest⟩ := hrev
    rw [List.map_cons, List.nodup_cons] at hnd
    obtain ⟨hnotmem, hndrest⟩ := hnd
    have hmapeq : (rest.reverse ++ [r]).map ResourceDecl.logicalId =
        rest.reverse.map ResourceDecl.logicalId ++ [r.logicalId] := by simp
    rw [List.reverse_cons] at ha
    rcases List.mem_append.1 ha with ha' | ha'
    · obtain ⟨hdm, hlt⟩ := ih hrest hndrest a ha' d hd
      have ham : a.logicalId ∈ rest.reverse.map ResourceDecl.logicalId :=
        List.mem_map_of_mem _ ha'
      refine ⟨?_, ?_⟩
      · rw [List.reverse_cons, hmapeq]
        exact List.mem_append_left _ hdm
      · rw [List.reverse_cons, hmapeq,
          List.indexOf_append_of_mem hdm, List.indexOf_append_of_mem ham]
        exact hlt
    · have haeq : a = r := by simpa using ha'
      subst haeq
      have hdm : d ∈ rest.map ResourceDecl.logicalId := hdep d hd
      have hdm' : d ∈ rest.reverse.map ResourceDecl.logicalId := by simpa using hdm
      have hanot : a.logicalId ∉ rest.reverse.map ResourceDecl.logicalId := by
        simpa using hnotmem
      refine ⟨?_, ?_⟩
      · rw [List.reverse_cons, hmapeq]
        exact List.mem_append_left _ hdm'
      · rw [List.reverse_cons, hmapeq,
          List.indexOf_append_of_mem hdm', List.indexOf_append_of_not_mem hanot]
        have hlen := List.indexOf_lt_length.2 hdm'
        omega

/-- Claim C1: the synthesis pipeline, applied to any construct tree (with
distinct logical ids), produces a resource graph whose dependency edges
contain no cycle: whenever synthesis succeeds, every resource's dependencies
occur strictly earlier in the emitted order, and the relation "resource A
depends on resource B" admits no dependency cycle. -/
theorem synthesis_produces_acyclic_order (tree : ConstructTree) (order : List ResourceDecl)
    (hnodup : (tree.collect.map ResourceDecl.logicalId).Nodup)
    (hok : synthesize tree = some order) :
    (∀ a ∈ order, ∀ d ∈ a.dependencies,
        d ∈ order.map ResourceDecl.logicalId ∧
        (order.map ResourceDecl.logicalId).indexOf d <
          (order.map ResourceDecl.logicalId).indexOf a.logicalId) ∧
    (∀ a, ¬ Relation.TransGen (dependsOn order) a a) := by
  simp only [synthesize] at hok
  have hperm : order.Perm tree.collect := by
    have h := synthLoop_perm _ _ _ _ hok
    simpa using h
  have hnd : (order.map ResourceDecl.logicalId).Nodup :=
    ((hperm.map ResourceDecl.logicalId).nodup_iff).2 hnodup
  obtain ⟨em, hrev, rfl⟩ :=
    synthLoop_revOK tree.collect.length [] tree.collect order trivial hok
  have hndem : (em.map ResourceDecl.logicalId).Nodup := by simpa using hnd
  have parta := revOK_indexOf em hrev hndem
  refine ⟨parta, ?_⟩
  intro a hcyc
  have hlt : ∀ x y, dependsOn em.reverse x y →
      (em.reverse.map ResourceDecl.logicalId).indexOf y.logicalId <
        (em.reverse.map ResourceDecl.logicalId).indexOf x.logicalId := by
    rintro x y ⟨hx, _, hdep⟩
    exact (parta x hx y.logicalId hdep).2
  have hmono : ∀ x y, Relation.TransGen (dependsOn em.reverse) x y →
      (em.reverse.map ResourceDecl.logicalId).indexOf y.logicalId <
        (em.reverse.map ResourceDecl.logicalId).indexOf x.logicalId := by
    intro x y h
    induction h with
    | single h1 => exact hlt _ _ h1
    | tail _ h2 ih => exact lt_trans (hlt _ _ h2) ih
  exact absurd (hmono a a hcyc) (lt_irrefl _)

/-- Witness for claim C1: a concrete three-resource tree synthesizes to the
order [1, 0, 2], and the resource with id 2 is on no dependency cycle. -/
theorem synthesis_produces_acyclic_order_witness :
    (c1tree.collect.map ResourceDecl.logicalId).Nodup ∧
    synthesize c1tree = some c1order ∧
    ¬ Relation.TransGen (dependsOn c1order) c1res c1res :=
  ⟨by decide, by decide,
    (synthesis_produces_acyclic_order c1tree c1order (by decide) (by decide)).2 c1res⟩

end AwsCdk
